import Mathlib

/-!
Verification of the sliding-median window engine (C sources under src/).

The development shallowly embeds the C code: IEEE-754 doubles are modelled by
the inductive type `EDouble` (NaN, the two infinities, and finite values as
exact rationals), C arrays by `List`/`Array` with explicit bounds behaviour
(`getD`/`setD`: a read outside the allocation would be undefined behaviour in
C; inside the allocation it returns the last value written, which is what the
running program sees), and `size_t` counters by `Nat`.  Fallible steps of the
heap engine (the places where the C code would index a heap array at
`length - 1` with `length == 0`, i.e. at `SIZE_MAX`) return `Option`:
`none` models the undefined behaviour / crash, `some` a defined execution.

Every definition is transcribed from the corresponding C function and keeps
its name.  The two macros that live in the repository's missing `config.h`
are modelled from the spec and marked as such below
(`TINY_MEDIANWINDOW_THRESHOLD`, `IS_INFINITY`).
-/

/-- Model of a C `double`: NaN, -infinity, a finite value (exact rational), +infinity. -/
inductive EDouble where
  | nan : EDouble
  | ninf : EDouble
  | fin (q : ℚ) : EDouble
  | pinf : EDouble
deriving DecidableEq, Repr

/-- C `isnan(v)`. -/
def isnan : EDouble → Bool
  | .nan => true
  | _ => false

/-- Modelled from the spec: the macro `IS_INFINITY` comes from the missing
`config.h`; per spec section 9 the padded networks "must fall back ... whenever
the input contains any non-finite value", so it recognises both infinities
(C `isinf`). -/
def IS_INFINITY : EDouble → Bool
  | .pinf => true
  | .ninf => true
  | _ => false

/-- IEEE comparison `a > b` (false whenever a NaN is involved). -/
def dgt : EDouble → EDouble → Bool
  | .nan, _ => false
  | _, .nan => false
  | .pinf, .pinf => false
  | .pinf, _ => true
  | _, .pinf => false
  | .ninf, _ => false
  | _, .ninf => true
  | .fin a, .fin b => decide (b < a)

/-- IEEE comparison `a < b`. -/
def dlt (a b : EDouble) : Bool := dgt b a

/-- IEEE comparison `a <= b` (false whenever a NaN is involved). -/
def dle : EDouble → EDouble → Bool
  | .nan, _ => false
  | _, .nan => false
  | .pinf, .pinf => true
  | .pinf, _ => false
  | _, .pinf => true
  | .ninf, _ => true
  | _, .ninf => false
  | .fin a, .fin b => decide (a ≤ b)

/-- IEEE comparison `a >= b`. -/
def dge (a b : EDouble) : Bool := dle b a

/-- IEEE addition `a + b` (exact on finite values; `+inf + -inf` is NaN).
The finite case is written with `Rat.divInt` so that it evaluates inside the
kernel; `dadd_fin` below proves it is ordinary rational addition. -/
def dadd : EDouble → EDouble → EDouble
  | .nan, _ => .nan
  | _, .nan => .nan
  | .pinf, .ninf => .nan
  | .ninf, .pinf => .nan
  | .pinf, _ => .pinf
  | _, .pinf => .pinf
  | .ninf, _ => .ninf
  | _, .ninf => .ninf
  | .fin a, .fin b => .fin (Rat.divInt (a.num * b.den + b.num * a.den) (a.den * b.den))

/-- IEEE division by two, `x / 2` (exact on finite values; written with
`Rat.divInt` so that it evaluates inside the kernel, see `dhalf_fin`). -/
def dhalf : EDouble → EDouble
  | .nan => .nan
  | .pinf => .pinf
  | .ninf => .ninf
  | .fin a => .fin (Rat.divInt a.num (2 * a.den))

/-- On finite values `dadd` is exact rational addition. -/
theorem dadd_fin (a b : ℚ) : dadd (.fin a) (.fin b) = .fin (a + b) := by
  have h : dadd (.fin a) (.fin b) =
      .fin (Rat.divInt (a.num * b.den + b.num * a.den) (a.den * b.den)) := rfl
  rw [h]
  congr 1
  have ha : ((a.den : ℚ)) ≠ 0 := Nat.cast_ne_zero.mpr a.den_nz
  have hb : ((b.den : ℚ)) ≠ 0 := Nat.cast_ne_zero.mpr b.den_nz
  rw [Rat.divInt_eq_div]
  push_cast
  conv_rhs => rw [← Rat.num_div_den a, ← Rat.num_div_den b]
  field_simp

/-- On finite values `dhalf` is exact rational halving. -/
theorem dhalf_fin (a : ℚ) : dhalf (.fin a) = .fin (a / 2) := by
  have h : dhalf (.fin a) = .fin (Rat.divInt a.num (2 * a.den)) := rfl
  rw [h]
  congr 1
  have ha : ((a.den : ℚ)) ≠ 0 := Nat.cast_ne_zero.mpr a.den_nz
  rw [Rat.divInt_eq_div]
  push_cast
  conv_rhs => rw [← Rat.num_div_den a]
  rw [div_div]
  ring_nf

/-- `DBL_MAX` as an exact rational: (2^53 - 1) * 2^971 (written with
`Rat.divInt` so that it evaluates inside the kernel). -/
def dblMax : ℚ := Rat.divInt ((2 ^ 53 - 1) * 2 ^ 971) 1

/-! ### Comparator networks

A comparator network is a list of index pairs; each pair `(i, j)` is one
source line `if(values[i] > values[j]) values_swap(&values[i], &values[j]);`.
`netApply` is parametrised by the boolean "greater than" so that the same
definition serves the C code (`dgt` on `EDouble`) and the ordered reasoning
(`gtOrd` on a linear order). -/

/-- One compare-and-swap step on a list (`values_swap` guarded by `gt`). -/
def casG (gt : α → α → Bool) (d : α) (l : List α) (i j : Nat) : List α :=
  if gt (l.getD i d) (l.getD j d) then (l.set i (l.getD j d)).set j (l.getD i d) else l

/-- Run a comparator network over a list. -/
def netApply (gt : α → α → Bool) (d : α) (ps : List (Nat × Nat)) (l : List α) : List α :=
  ps.foldl (fun l p => casG gt d l p.1 p.2) l

/-- The strict "greater than" of a linear order as a boolean comparator. -/
def gtOrd [LinearOrder α] (x y : α) : Bool := decide (y < x)

/-- Comparator schedule of `median_network_2`. -/
def mn2ps : List (Nat × Nat) := [(0, 1)]

/-- Comparator schedule of `median_network_3`. -/
def mn3ps : List (Nat × Nat) := [(0, 1), (1, 2), (0, 1)]

/-- Comparator schedule of `median_network_4`. -/
def mn4ps : List (Nat × Nat) := [(0, 1), (2, 3), (0, 2), (1, 3)]

/-- Comparator schedule of `median_network_5`. -/
def mn5ps : List (Nat × Nat) := [(0, 1), (2, 3), (0, 2), (1, 3), (2, 4), (1, 2), (2, 4)]

/-- Comparator schedule of `median_network_6`. -/
def mn6ps : List (Nat × Nat) :=
  [(0, 1), (4, 5), (0, 5), (1, 3), (2, 4), (0, 2), (1, 4), (3, 5), (1, 2), (3, 4)]

/-- Comparator schedule of `sorting_network_6`. -/
def sn6ps : List (Nat × Nat) :=
  [(0, 3), (1, 4), (2, 5), (0, 2), (3, 5), (1, 3), (2, 4), (0, 1), (2, 3), (4, 5), (1, 2), (3, 4)]

/-- Comparator schedule of `median_network_7`. -/
def mn7ps : List (Nat × Nat) :=
  [(0, 6), (1, 2), (3, 4), (0, 2), (1, 4), (3, 5), (0, 1), (2, 5), (4, 6), (1, 3), (2, 4),
   (3, 4), (2, 3)]

/-- Comparator schedule of `median_network_8`. -/
def mn8ps : List (Nat × Nat) :=
  [(0, 2), (1, 3), (4, 6), (5, 7), (0, 4), (1, 5), (2, 6), (3, 7), (0, 1), (2, 4), (3, 5),
   (6, 7), (2, 3), (4, 5), (1, 4), (3, 6)]

/-- Comparator schedule of `sorting_network_8`. -/
def sn8ps : List (Nat × Nat) :=
  [(0, 5), (1, 3), (2, 7), (4, 6), (0, 2), (1, 4), (3, 6), (5, 7), (0, 1), (2, 4), (3, 5),
   (6, 7), (1, 3), (4, 6), (2, 3), (4, 5), (1, 2), (3, 4), (5, 6)]

/-- `median_network_2` from tiny_medianwindow.c. -/
def median_network_2 (l : List EDouble) : List EDouble := netApply dgt .nan mn2ps l

/-- `median_network_3` from tiny_medianwindow.c. -/
def median_network_3 (l : List EDouble) : List EDouble := netApply dgt .nan mn3ps l

/-- `median_network_4` from tiny_medianwindow.c. -/
def median_network_4 (l : List EDouble) : List EDouble := netApply dgt .nan mn4ps l

/-- `median_network_5` from tiny_medianwindow.c. -/
def median_network_5 (l : List EDouble) : List EDouble := netApply dgt .nan mn5ps l

/-- `median_network_6` from tiny_medianwindow.c. -/
def median_network_6 (l : List EDouble) : List EDouble := netApply dgt .nan mn6ps l

/-- `sorting_network_6` from tiny_medianwindow.c. -/
def sorting_network_6 (l : List EDouble) : List EDouble := netApply dgt .nan sn6ps l

/-- `median_network_7` from tiny_medianwindow.c. -/
def median_network_7 (l : List EDouble) : List EDouble := netApply dgt .nan mn7ps l

/-- `median_network_8` from tiny_medianwindow.c. -/
def median_network_8 (l : List EDouble) : List EDouble := netApply dgt .nan mn8ps l

/-- `sorting_network_8` from tiny_medianwindow.c. -/
def sorting_network_8 (l : List EDouble) : List EDouble := netApply dgt .nan sn8ps l

/-! ### Small-window engine (tiny_medianwindow.c)

The `sort_and_calc_*` functions receive exactly the current window slice
(`windowSize` doubles starting at the tail pointer).  The compaction helpers
write every sample at the current output position and advance it only past
non-NaN samples, exactly as the C loops do; the stack buffer's untouched
cells (never read by the networks) are modelled as NaN. -/

/-- `values_build_nan_free_array`: returns the NaN count and the compacted buffer. -/
def values_build_nan_free_array (input : List EDouble) : Nat × List EDouble :=
  let r := input.foldl
    (fun (st : Nat × Nat × List EDouble) v =>
      let output := st.2.2.set st.2.1 v
      if isnan v then (st.1 + 1, st.2.1, output) else (st.1, st.2.1 + 1, output))
    (0, 0, List.replicate input.length EDouble.nan)
  (r.1, r.2.2)

/-- One iteration of the `values_build_nan_free_array_count_nan_inf` loop:
the state is (nanCount, infCount, outputPosition, buffer). -/
def values_build_cni_step (st : Nat × Nat × Nat × List EDouble) (v : EDouble) :
    Nat × Nat × Nat × List EDouble :=
  let output := st.2.2.2.set st.2.2.1 v
  let st1 : Nat × Nat × Nat × List EDouble :=
    if isnan v then (st.1 + 1, st.2.1, st.2.2.1, output)
    else (st.1, st.2.1, st.2.2.1 + 1, output)
  (st1.1, st1.2.1 + (IS_INFINITY v).toNat, st1.2.2.1, st1.2.2.2)

/-- `values_build_nan_free_array_count_nan_inf`: NaN count, infinity count, compacted buffer. -/
def values_build_nan_free_array_count_nan_inf (input : List EDouble) :
    Nat × Nat × List EDouble :=
  let r := input.foldl values_build_cni_step (0, 0, 0, List.replicate input.length EDouble.nan)
  (r.1, r.2.1, r.2.2.2)

/-- `values_build_array_handle_nan`: whether a NaN occurs, and a copy of the window. -/
def values_build_array_handle_nan (input : List EDouble) : Bool × List EDouble :=
  (input.any isnan, input)

/-- `sort_and_calc_median2` (tolerant policy, width 2). -/
def sort_and_calc_median2 (l : List EDouble) : EDouble :=
  let v0 := l.getD 0 .nan
  let v1 := l.getD 1 .nan
  let nan0 := isnan v0
  let nan1 := isnan v1
  let nanCount := nan0.toNat + nan1.toNat
  if nanCount = 0 then
    let values := median_network_2 [v0, v1]
    dhalf (dadd (values.getD 0 .nan) (values.getD 1 .nan))
  else if nanCount = 2 then .nan
  else if !nan0 then v0 else v1

/-- `sort_and_calc_median2_nan_handle` (strict policy, width 2). -/
def sort_and_calc_median2_nan_handle (l : List EDouble) : EDouble :=
  let v0 := l.getD 0 .nan
  let v1 := l.getD 1 .nan
  if isnan v0 || isnan v1 then .nan
  else
    let values := median_network_2 [v0, v1]
    dhalf (dadd (values.getD 0 .nan) (values.getD 1 .nan))

/-- `sort_and_calc_median3` (tolerant policy, width 3). -/
def sort_and_calc_median3 (l : List EDouble) : EDouble :=
  let v0 := l.getD 0 .nan
  let v1 := l.getD 1 .nan
  let v2 := l.getD 2 .nan
  let nan0 := isnan v0
  let nan1 := isnan v1
  let nan2 := isnan v2
  let nanCount := nan0.toNat + nan1.toNat + nan2.toNat
  if nanCount = 0 then (median_network_3 [v0, v1, v2]).getD 1 .nan
  else if nanCount = 3 then .nan
  else if !nan0 && !nan1 then dhalf (dadd v0 v1)
  else if !nan0 && !nan2 then dhalf (dadd v0 v2)
  else if !nan1 && !nan2 then dhalf (dadd v1 v2)
  else if !nan0 then v0 else if !nan1 then v1 else v2

/-- `sort_and_calc_median3_nan_handle` (strict policy, width 3). -/
def sort_and_calc_median3_nan_handle (l : List EDouble) : EDouble :=
  let v0 := l.getD 0 .nan
  let v1 := l.getD 1 .nan
  let v2 := l.getD 2 .nan
  if isnan v0 || isnan v1 || isnan v2 then .nan
  else (median_network_3 [v0, v1, v2]).getD 1 .nan

/-- `sort_and_calc_median4` (tolerant policy, width 4). -/
def sort_and_calc_median4 (l : List EDouble) : EDouble :=
  let r := values_build_nan_free_array l
  let nanCount := r.1
  let values := r.2
  if nanCount = 0 then
    let s := median_network_4 values
    dhalf (dadd (s.getD 1 .nan) (s.getD 2 .nan))
  else if nanCount = 4 then .nan
  else
    let validNum := 4 - nanCount
    if validNum = 3 then (median_network_3 values).getD 1 .nan
    else if validNum = 2 then
      let s := median_network_2 values
      dhalf (dadd (s.getD 0 .nan) (s.getD 1 .nan))
    else values.getD 0 .nan

/-- `sort_and_calc_median4_nan_handle` (strict policy, width 4). -/
def sort_and_calc_median4_nan_handle (l : List EDouble) : EDouble :=
  let r := values_build_array_handle_nan l
  if r.1 then .nan
  else
    let s := median_network_4 r.2
    dhalf (dadd (s.getD 1 .nan) (s.getD 2 .nan))

/-- The branch condition of `sort_and_calc_median5` that selects the padded
6-wide full sorting network: no NaN and no infinity in the window. -/
def med5_padded_cond (l : List EDouble) : Bool :=
  let r := values_build_nan_free_array_count_nan_inf l
  r.1 = 0 && r.2.1 = 0

/-- `sort_and_calc_median5` (tolerant policy, width 5).  The all-finite fast
path copies the window, appends a `DBL_MAX` sentinel and runs the 6-wide
full sorting network. -/
def sort_and_calc_median5 (l : List EDouble) : EDouble :=
  let r := values_build_nan_free_array_count_nan_inf l
  let nanCount := r.1
  let infCount := r.2.1
  let values := r.2.2
  if nanCount = 0 && infCount = 0 then
    let validValues := values ++ [EDouble.fin dblMax]
    (sorting_network_6 validValues).getD 2 .nan
  else if nanCount = 0 then (median_network_5 values).getD 2 .nan
  else if nanCount = 5 then .nan
  else
    let validNum := 5 - nanCount
    if validNum = 4 then
      let s := median_network_4 values
      dhalf (dadd (s.getD 1 .nan) (s.getD 2 .nan))
    else if validNum = 3 then (median_network_3 values).getD 1 .nan
    else if validNum = 2 then
      let s := median_network_2 values
      dhalf (dadd (s.getD 0 .nan) (s.getD 1 .nan))
    else values.getD 0 .nan

/-- `sort_and_calc_median5_nan_handle` (strict policy, width 5). -/
def sort_and_calc_median5_nan_handle (l : List EDouble) : EDouble :=
  let r := values_build_array_handle_nan l
  if r.1 then .nan
  else (median_network_5 r.2).getD 2 .nan

/-- `sort_and_calc_median6` (tolerant policy, width 6). -/
def sort_and_calc_median6 (l : List EDouble) : EDouble :=
  let r := values_build_nan_free_array l
  let nanCount := r.1
  let values := r.2
  if nanCount = 0 then
    let s := median_network_6 values
    dhalf (dadd (s.getD 2 .nan) (s.getD 3 .nan))
  else if nanCount = 6 then .nan
  else
    let validNum := 6 - nanCount
    if validNum = 5 then (median_network_5 values).getD 2 .nan
    else if validNum = 4 then
      let s := median_network_4 values
      dhalf (dadd (s.getD 1 .nan) (s.getD 2 .nan))
    else if validNum = 3 then (median_network_3 values).getD 1 .nan
    else if validNum = 2 then
      let s := median_network_2 values
      dhalf (dadd (s.getD 0 .nan) (s.getD 1 .nan))
    else values.getD 0 .nan

/-- `sort_and_calc_median6_nan_handle` (strict policy, width 6). -/
def sort_and_calc_median6_nan_handle (l : List EDouble) : EDouble :=
  let r := values_build_array_handle_nan l
  if r.1 then .nan
  else
    let s := median_network_6 r.2
    dhalf (dadd (s.getD 2 .nan) (s.getD 3 .nan))

/-- The branch condition of `sort_and_calc_median7` that selects the padded
8-wide full sorting network: no NaN and no infinity in the window. -/
def med7_padded_cond (l : List EDouble) : Bool :=
  let r := values_build_nan_free_array_count_nan_inf l
  r.1 = 0 && r.2.1 = 0

/-- `sort_and_calc_median7` (tolerant policy, width 7), with the `DBL_MAX`
padded 8-wide full sorting network on the all-finite fast path. -/
def sort_and_calc_median7 (l : List EDouble) : EDouble :=
  let r := values_build_nan_free_array_count_nan_inf l
  let nanCount := r.1
  let infCount := r.2.1
  let values := r.2.2
  if nanCount = 0 && infCount = 0 then
    let validValues := values ++ [EDouble.fin dblMax]
    (sorting_network_8 validValues).getD 3 .nan
  else if nanCount = 0 then (median_network_7 values).getD 3 .nan
  else if nanCount = 7 then .nan
  else
    let validNum := 7 - nanCount
    if validNum = 6 then
      let s := median_network_6 values
      dhalf (dadd (s.getD 2 .nan) (s.getD 3 .nan))
    else if validNum = 5 then (median_network_5 values).getD 2 .nan
    else if validNum = 4 then
      let s := median_network_4 values
      dhalf (dadd (s.getD 1 .nan) (s.getD 2 .nan))
    else if validNum = 3 then (median_network_3 values).getD 1 .nan
    else if validNum = 2 then
      let s := median_network_2 values
      dhalf (dadd (s.getD 0 .nan) (s.getD 1 .nan))
    else values.getD 0 .nan

/-- `sort_and_calc_median7_nan_handle` (strict policy, width 7). -/
def sort_and_calc_median7_nan_handle (l : List EDouble) : EDouble :=
  let r := values_build_array_handle_nan l
  if r.1 then .nan
  else (median_network_7 r.2).getD 3 .nan

/-- `sort_and_calc_median8` (tolerant policy, width 8). -/
def sort_and_calc_median8 (l : List EDouble) : EDouble :=
  let r := values_build_nan_free_array l
  let nanCount := r.1
  let values := r.2
  if nanCount = 0 then
    let s := median_network_8 values
    dhalf (dadd (s.getD 3 .nan) (s.getD 4 .nan))
  else if nanCount = 8 then .nan
  else
    let validNum := 8 - nanCount
    if validNum = 7 then (median_network_7 values).getD 3 .nan
    else if validNum = 6 then
      let s := median_network_6 values
      dhalf (dadd (s.getD 2 .nan) (s.getD 3 .nan))
    else if validNum = 5 then (median_network_5 values).getD 2 .nan
    else if validNum = 4 then
      let s := median_network_4 values
      dhalf (dadd (s.getD 1 .nan) (s.getD 2 .nan))
    else if validNum = 3 then (median_network_3 values).getD 1 .nan
    else if validNum = 2 then
      let s := median_network_2 values
      dhalf (dadd (s.getD 0 .nan) (s.getD 1 .nan))
    else values.getD 0 .nan

/-- `sort_and_calc_median8_nan_handle` (strict policy, width 8). -/
def sort_and_calc_median8_nan_handle (l : List EDouble) : EDouble :=
  let r := values_build_array_handle_nan l
  if r.1 then .nan
  else
    let s := median_network_8 r.2
    dhalf (dadd (s.getD 3 .nan) (s.getD 4 .nan))

/-- `set_sort_and_calc_function`: selects the per-width routine.  For a width
outside 2..8 the C switch leaves the function pointer uninitialised
(undefined behaviour when called), modelled by `none`. -/
def set_sort_and_calc_function (windowSize : Nat) (ignoreNaNWindows : Bool) :
    Option (List EDouble → EDouble) :=
  match windowSize with
  | 2 => some (if ignoreNaNWindows then sort_and_calc_median2_nan_handle else sort_and_calc_median2)
  | 3 => some (if ignoreNaNWindows then sort_and_calc_median3_nan_handle else sort_and_calc_median3)
  | 4 => some (if ignoreNaNWindows then sort_and_calc_median4_nan_handle else sort_and_calc_median4)
  | 5 => some (if ignoreNaNWindows then sort_and_calc_median5_nan_handle else sort_and_calc_median5)
  | 6 => some (if ignoreNaNWindows then sort_and_calc_median6_nan_handle else sort_and_calc_median6)
  | 7 => some (if ignoreNaNWindows then sort_and_calc_median7_nan_handle else sort_and_calc_median7)
  | 8 => some (if ignoreNaNWindows then sort_and_calc_median8_nan_handle else sort_and_calc_median8)
  | _ => none

/-! ### Large-window dual-heap engine (median_window.c)

Pointers to heap nodes are modelled as indices into the node arena
(`nodes : Array HeapNode`); the two heap arrays hold node indices.  The heap
arrays are allocated at their full capacity up front (as `malloc` does) and
carry explicit `maxHeapLength` / `minHeapLength` fields, so a read of a cell
beyond the current length but inside the capacity yields the value last
written there, exactly as in the running C program. -/

/-- `HeapType` from median_window.h. -/
inductive HeapType where
  | MAX_HEAP : HeapType
  | MIN_HEAP : HeapType
  | SPC_NUMBER : HeapType
deriving DecidableEq, Repr

/-- `SPC_NUMBER_INPUT_POSITION`, i.e. `SIZE_MAX`. -/
def SPC_NUMBER_INPUT_POSITION : Nat := 2 ^ 64 - 1

/-- `HeapNode` from median_window.h (`next` is the arena index of the FIFO successor). -/
structure HeapNode where
  value : EDouble
  position : Nat
  next : Nat
  type : HeapType
  isNaN : Bool
deriving Repr

/-- Placeholder contents of a freshly allocated (uninitialised) node. -/
def dummyNode : HeapNode := { value := .nan, position := 0, next := 0, type := .MAX_HEAP, isNaN := false }

/-- `MedianWindow` from median_window.h. -/
structure MedianWindow where
  windowSize : Nat
  currentSize : Nat
  steps : Nat
  stepDistance : Nat
  maxHeap : Array Nat
  maxHeapLength : Nat
  minHeap : Array Nat
  minHeapLength : Nat
  tail : Nat
  head : Nat
  nodes : Array HeapNode
  spcNumbers : Nat
  ignoreNaNWindows : Bool
deriving Repr

/-- Read a node of the arena. -/
def nodeGet (nodes : Array HeapNode) (i : Nat) : HeapNode := nodes.getD i dummyNode

/-- Write the `position` field of node `i` (one half of a pointer swap). -/
def nodeSetPos (nodes : Array HeapNode) (i pos : Nat) : Array HeapNode :=
  nodes.setD i { nodeGet nodes i with position := pos }

/-- Write the `type` field of node `i`. -/
def nodeSetType (nodes : Array HeapNode) (i : Nat) (t : HeapType) : Array HeapNode :=
  nodes.setD i { nodeGet nodes i with type := t }

/-- Write the `value` field of node `i`. -/
def nodeSetValue (nodes : Array HeapNode) (i : Nat) (v : EDouble) : Array HeapNode :=
  nodes.setD i { nodeGet nodes i with value := v }

/-- Write the `next` field of node `i`. -/
def nodeSetNext (nodes : Array HeapNode) (i nxt : Nat) : Array HeapNode :=
  nodes.setD i { nodeGet nodes i with next := nxt }

/-- `medianwindow_initialize` (named `medianwindow_init` here): carve out the
max-heap array (capacity `W/2`, plus one for odd `W`), the min-heap array
(capacity `W/2`) and the node arena of `W` nodes. -/
def medianwindow_init (windowSize steps : Nat) (ignoreNaNWindows : Bool) : MedianWindow :=
  let evenWindow := windowSize % 2 = 0
  let heapLength := windowSize / 2
  let maxHeapCapacity := if evenWindow then heapLength else heapLength + 1
  { windowSize := windowSize
    currentSize := 0
    steps := steps
    stepDistance := 0
    maxHeap := Array.mkArray maxHeapCapacity 0
    maxHeapLength := 0
    minHeap := Array.mkArray heapLength 0
    minHeapLength := 0
    tail := 0
    head := 0
    nodes := Array.mkArray windowSize dummyNode
    spcNumbers := 0
    ignoreNaNWindows := ignoreNaNWindows }

/-- `heap_calculate_children`. -/
def heap_calculate_children (heapLength position : Nat) : Nat :=
  let minChildPosition := position * 8 + 1
  let maxChildPosition := position * 8 + 8
  if minChildPosition ≥ heapLength then 0
  else if maxChildPosition ≥ heapLength then heapLength - minChildPosition
  else maxChildPosition - minChildPosition + 1

/-- `maxheap_put`: append a node reference at the end of the max-heap;
returns the updated window and the insertion position. -/
def maxheap_put (w : MedianWindow) (targetIdx : Nat) : MedianWindow × Nat :=
  let inputPosition := w.maxHeapLength
  let nodes := w.nodes.setD targetIdx
    { nodeGet w.nodes targetIdx with position := inputPosition, type := .MAX_HEAP, isNaN := false }
  ({ w with nodes := nodes,
            maxHeap := w.maxHeap.setD inputPosition targetIdx,
            maxHeapLength := w.maxHeapLength + 1 }, inputPosition)

/-- `minheap_put`. -/
def minheap_put (w : MedianWindow) (targetIdx : Nat) : MedianWindow × Nat :=
  let inputPosition := w.minHeapLength
  let nodes := w.nodes.setD targetIdx
    { nodeGet w.nodes targetIdx with position := inputPosition, type := .MIN_HEAP, isNaN := false }
  ({ w with nodes := nodes,
            minHeap := w.minHeap.setD inputPosition targetIdx,
            minHeapLength := w.minHeapLength + 1 }, inputPosition)

/-- Loop body of `maxheap_heapifyUp`: `targetIdx` is the hoisted target node,
parents are shifted down until the heap order is restored.  The position is
strictly decreasing, so a fuel of `position + 1` can never run out. -/
def maxheap_heapifyUp_go (targetIdx : Nat) (fuel : Nat) (nodes : Array HeapNode)
    (heap : Array Nat) (position : Nat) : Array HeapNode × Array Nat :=
  match fuel with
  | 0 => (nodeSetPos nodes targetIdx position, heap.setD position targetIdx)
  | fuel + 1 =>
    if position = 0 then (nodeSetPos nodes targetIdx position, heap.setD position targetIdx)
    else
      let parentPosition := (position - 1) / 8
      let parentIdx := heap.getD parentPosition 0
      if dle (nodeGet nodes targetIdx).value (nodeGet nodes parentIdx).value then
        (nodeSetPos nodes targetIdx position, heap.setD position targetIdx)
      else
        maxheap_heapifyUp_go targetIdx fuel (nodeSetPos nodes parentIdx position)
          (heap.setD position parentIdx) parentPosition

/-- `maxheap_heapifyUp`. -/
def maxheap_heapifyUp (nodes : Array HeapNode) (heap : Array Nat) (position : Nat) :
    Array HeapNode × Array Nat :=
  maxheap_heapifyUp_go (heap.getD position 0) (position + 1) nodes heap position

/-- `minheap_heapifyUp` loop body (parent comparison uses `>=`). -/
def minheap_heapifyUp_go (targetIdx : Nat) (fuel : Nat) (nodes : Array HeapNode)
    (heap : Array Nat) (position : Nat) : Array HeapNode × Array Nat :=
  match fuel with
  | 0 => (nodeSetPos nodes targetIdx position, heap.setD position targetIdx)
  | fuel + 1 =>
    if position = 0 then (nodeSetPos nodes targetIdx position, heap.setD position targetIdx)
    else
      let parentPosition := (position - 1) / 8
      let parentIdx := heap.getD parentPosition 0
      if dge (nodeGet nodes targetIdx).value (nodeGet nodes parentIdx).value then
        (nodeSetPos nodes targetIdx position, heap.setD position targetIdx)
      else
        minheap_heapifyUp_go targetIdx fuel (nodeSetPos nodes parentIdx position)
          (heap.setD position parentIdx) parentPosition

/-- `minheap_heapifyUp`. -/
def minheap_heapifyUp (nodes : Array HeapNode) (heap : Array Nat) (position : Nat) :
    Array HeapNode × Array Nat :=
  minheap_heapifyUp_go (heap.getD position 0) (position + 1) nodes heap position

/-- `maxheap_largestChild`: the C switch falls through from case
`numChildren` down to case 1, each comparison reading the value at the
current (already updated) candidate position. -/
def maxheap_largestChild (nodes : Array HeapNode) (heap : Array Nat)
    (heapLength position : Nat) : Nat :=
  let minChildPosition := position * 8 + 1
  let numChildren := heap_calculate_children heapLength position
  let val := fun p => (nodeGet nodes (heap.getD p 0)).value
  let step := fun (k pos : Nat) =>
    if numChildren ≥ k && dgt (val (minChildPosition + (k - 1))) (val pos) then
      minChildPosition + (k - 1)
    else pos
  step 1 (step 2 (step 3 (step 4 (step 5 (step 6 (step 7 (step 8 position)))))))

/-- `minheap_smallestChild` (comparisons use `<`). -/
def minheap_smallestChild (nodes : Array HeapNode) (heap : Array Nat)
    (heapLength position : Nat) : Nat :=
  let minChildPosition := position * 8 + 1
  let numChildren := heap_calculate_children heapLength position
  let val := fun p => (nodeGet nodes (heap.getD p 0)).value
  let step := fun (k pos : Nat) =>
    if numChildren ≥ k && dlt (val (minChildPosition + (k - 1))) (val pos) then
      minChildPosition + (k - 1)
    else pos
  step 1 (step 2 (step 3 (step 4 (step 5 (step 6 (step 7 (step 8 position)))))))

/-- Loop body of `maxheap_heapifyDown`; the position strictly increases and
stays below `heapLength`, so a fuel of `heapLength + 1` can never run out. -/
def maxheap_heapifyDown_go (fuel : Nat) (nodes : Array HeapNode) (heap : Array Nat)
    (heapLength position : Nat) : Array HeapNode × Array Nat :=
  match fuel with
  | 0 => (nodes, heap)
  | fuel + 1 =>
    let target := maxheap_largestChild nodes heap heapLength position
    if target = position then (nodes, heap)
    else
      let positionIdx := heap.getD position 0
      let childIdx := heap.getD target 0
      let nodes := nodeSetPos nodes positionIdx target
      let heap := heap.setD target positionIdx
      let nodes := nodeSetPos nodes childIdx position
      let heap := heap.setD position childIdx
      maxheap_heapifyDown_go fuel nodes heap heapLength target

/-- `maxheap_heapifyDown`. -/
def maxheap_heapifyDown (nodes : Array HeapNode) (heap : Array Nat)
    (heapLength position : Nat) : Array HeapNode × Array Nat :=
  maxheap_heapifyDown_go (heapLength + 1) nodes heap heapLength position

/-- Loop body of `minheap_heapifyDown`. -/
def minheap_heapifyDown_go (fuel : Nat) (nodes : Array HeapNode) (heap : Array Nat)
    (heapLength position : Nat) : Array HeapNode × Array Nat :=
  match fuel with
  | 0 => (nodes, heap)
  | fuel + 1 =>
    let target := minheap_smallestChild nodes heap heapLength position
    if target = position then (nodes, heap)
    else
      let positionIdx := heap.getD position 0
      let childIdx := heap.getD target 0
      let nodes := nodeSetPos nodes positionIdx target
      let heap := heap.setD target positionIdx
      let nodes := nodeSetPos nodes childIdx position
      let heap := heap.setD position childIdx
      minheap_heapifyDown_go fuel nodes heap heapLength target

/-- `minheap_heapifyDown`. -/
def minheap_heapifyDown (nodes : Array HeapNode) (heap : Array Nat)
    (heapLength position : Nat) : Array HeapNode × Array Nat :=
  minheap_heapifyDown_go (heapLength + 1) nodes heap heapLength position

/-- `heaps_can_rebalance`. -/
def heaps_can_rebalance (w : MedianWindow) : Bool :=
  w.maxHeapLength > 0 && w.minHeapLength > 0

/-- `heaps_rebalance`: swap the two roots (flipping their type tags) unless
the max root is already strictly below the min root, then sift both down. -/
def heaps_rebalance (w : MedianWindow) : MedianWindow :=
  let maxRootIdx := w.maxHeap.getD 0 0
  let minRootIdx := w.minHeap.getD 0 0
  if dlt (nodeGet w.nodes maxRootIdx).value (nodeGet w.nodes minRootIdx).value then w
  else
    let maxHeap := w.maxHeap.setD 0 minRootIdx
    let nodes := nodeSetType w.nodes minRootIdx .MAX_HEAP
    let minHeap := w.minHeap.setD 0 maxRootIdx
    let nodes := nodeSetType nodes maxRootIdx .MIN_HEAP
    let p1 := maxheap_heapifyDown nodes maxHeap w.maxHeapLength 0
    let p2 := minheap_heapifyDown p1.1 minHeap w.minHeapLength 0
    { w with nodes := p2.1, maxHeap := p1.2, minHeap := p2.2 }

/-- `medianwindow_put_spc_number`: move a node into the NaN side-set. -/
def medianwindow_put_spc_number (w : MedianWindow) (targetIdx : Nat) : MedianWindow :=
  let nodes := w.nodes.setD targetIdx
    { nodeGet w.nodes targetIdx with
        position := SPC_NUMBER_INPUT_POSITION, type := .SPC_NUMBER, isNaN := true }
  { w with nodes := nodes, spcNumbers := w.spcNumbers + 1 }

/-- `medianwindow_maxheap_root_to_minheap_root`. -/
def medianwindow_maxheap_root_to_minheap_root (w : MedianWindow) : MedianWindow :=
  let lastIdx := w.maxHeap.getD (w.maxHeapLength - 1) 0
  let w := { w with maxHeapLength := w.maxHeapLength - 1 }
  let rootIdx := w.maxHeap.getD 0 0
  let w :=
    if lastIdx ≠ rootIdx then
      let nodes := nodeSetPos w.nodes lastIdx 0
      let maxHeap := w.maxHeap.setD 0 lastIdx
      let p := maxheap_heapifyDown nodes maxHeap w.maxHeapLength 0
      { w with nodes := p.1, maxHeap := p.2 }
    else w
  let pr := minheap_put w rootIdx
  let p2 := minheap_heapifyUp pr.1.nodes pr.1.minHeap pr.2
  heaps_rebalance { pr.1 with nodes := p2.1, minHeap := p2.2 }

/-- `medianwindow_minheap_root_to_maxheap_root`. -/
def medianwindow_minheap_root_to_maxheap_root (w : MedianWindow) : MedianWindow :=
  let lastIdx := w.minHeap.getD (w.minHeapLength - 1) 0
  let w := { w with minHeapLength := w.minHeapLength - 1 }
  let rootIdx := w.minHeap.getD 0 0
  let w :=
    if lastIdx ≠ rootIdx then
      let nodes := nodeSetPos w.nodes lastIdx 0
      let minHeap := w.minHeap.setD 0 lastIdx
      let p := minheap_heapifyDown nodes minHeap w.minHeapLength 0
      { w with nodes := p.1, minHeap := p.2 }
    else w
  let pr := maxheap_put w rootIdx
  let p2 := maxheap_heapifyUp pr.1.nodes pr.1.maxHeap pr.2
  heaps_rebalance { pr.1 with nodes := p2.1, maxHeap := p2.2 }

/-- `medianwindow_addNew`: bind the next arena node during the fill-up phase. -/
def medianwindow_addNew (w : MedianWindow) (value : EDouble) : MedianWindow :=
  let inputNodeIdx := w.currentSize
  let w0 := { w with nodes := nodeSetValue w.nodes inputNodeIdx value }
  let isNaN := isnan value
  let w1 :=
    if w0.maxHeapLength = 0 && w0.spcNumbers = 0 then
      let w2 :=
        if isNaN then medianwindow_put_spc_number w0 inputNodeIdx
        else (maxheap_put w0 inputNodeIdx).1
      { w2 with tail := inputNodeIdx }
    else
      let w2 :=
        if w0.maxHeapLength > w0.minHeapLength then
          if isNaN then medianwindow_put_spc_number w0 inputNodeIdx
          else
            let pr := minheap_put w0 inputNodeIdx
            let p := minheap_heapifyUp pr.1.nodes pr.1.minHeap pr.2
            { pr.1 with nodes := p.1, minHeap := p.2 }
        else
          if isNaN then medianwindow_put_spc_number w0 inputNodeIdx
          else
            let pr := maxheap_put w0 inputNodeIdx
            let p := maxheap_heapifyUp pr.1.nodes pr.1.maxHeap pr.2
            { pr.1 with nodes := p.1, maxHeap := p.2 }
      let w3 := if heaps_can_rebalance w2 then heaps_rebalance w2 else w2
      { w3 with nodes := nodeSetNext w3.nodes w3.head inputNodeIdx }
  { w1 with head := inputNodeIdx, currentSize := w.currentSize + 1 }

/-- `medianwindow_updateOld`: replace the expiring tail sample in place.
Returns `none` exactly where the C code would index a heap array at
`length - 1` with `length == 0` (an out-of-bounds `SIZE_MAX` access). -/
def medianwindow_updateOld (w : MedianWindow) (value : EDouble) : Option MedianWindow :=
  let tailIdx := w.tail
  let tailNode := nodeGet w.nodes tailIdx
  let w := { w with tail := tailNode.next,
                    nodes := nodeSetNext w.nodes w.head tailIdx,
                    head := tailIdx }
  if tailNode.isNaN && isnan value then some w
  else if tailNode.isNaN then
    let w := { w with nodes := nodeSetValue w.nodes tailIdx value,
                      spcNumbers := w.spcNumbers - 1 }
    let w :=
      if w.maxHeapLength > w.minHeapLength then
        let pr := minheap_put w tailIdx
        let p := minheap_heapifyUp pr.1.nodes pr.1.minHeap pr.2
        { pr.1 with nodes := p.1, minHeap := p.2 }
      else
        let pr := maxheap_put w tailIdx
        let p := maxheap_heapifyUp pr.1.nodes pr.1.maxHeap pr.2
        { pr.1 with nodes := p.1, maxHeap := p.2 }
    some (if heaps_can_rebalance w then heaps_rebalance w else w)
  else
    let oldValue := tailNode.value
    let inputPosition := tailNode.position
    let tailNodeHeapType := tailNode.type
    let w := { w with nodes := nodeSetValue w.nodes tailIdx value }
    if isnan value then
      if tailNodeHeapType = .MAX_HEAP then
        if w.maxHeapLength = 0 then none
        else
          let lastIdx := w.maxHeap.getD (w.maxHeapLength - 1) 0
          let w := { w with maxHeapLength := w.maxHeapLength - 1 }
          if lastIdx ≠ tailIdx then
            let newValue := (nodeGet w.nodes lastIdx).value
            let w := { w with nodes := nodeSetPos w.nodes lastIdx inputPosition,
                              maxHeap := w.maxHeap.setD inputPosition lastIdx }
            let w := medianwindow_put_spc_number w tailIdx
            let w :=
              if dgt newValue oldValue then
                let p := maxheap_heapifyUp w.nodes w.maxHeap inputPosition
                let w := { w with nodes := p.1, maxHeap := p.2 }
                if heaps_can_rebalance w then heaps_rebalance w else w
              else
                let p := maxheap_heapifyDown w.nodes w.maxHeap w.maxHeapLength inputPosition
                { w with nodes := p.1, maxHeap := p.2 }
            some (if w.maxHeapLength > w.minHeapLength + 1 then
                    medianwindow_maxheap_root_to_minheap_root w
                  else if w.minHeapLength > w.maxHeapLength then
                    medianwindow_minheap_root_to_maxheap_root w
                  else w)
          else some (medianwindow_put_spc_number w tailIdx)
      else
        if w.minHeapLength = 0 then none
        else
          let lastIdx := w.minHeap.getD (w.minHeapLength - 1) 0
          let w := { w with minHeapLength := w.minHeapLength - 1 }
          if lastIdx ≠ tailIdx then
            let newValue := (nodeGet w.nodes lastIdx).value
            let w := { w with nodes := nodeSetPos w.nodes lastIdx inputPosition,
                              minHeap := w.minHeap.setD inputPosition lastIdx }
            let w := medianwindow_put_spc_number w tailIdx
            let w :=
              if dlt newValue oldValue then
                let p := minheap_heapifyUp w.nodes w.minHeap inputPosition
                let w := { w with nodes := p.1, minHeap := p.2 }
                if heaps_can_rebalance w then heaps_rebalance w else w
              else
                let p := minheap_heapifyDown w.nodes w.minHeap w.minHeapLength inputPosition
                { w with nodes := p.1, minHeap := p.2 }
            some (if w.maxHeapLength > w.minHeapLength + 1 then
                    medianwindow_maxheap_root_to_minheap_root w
                  else if w.minHeapLength > w.maxHeapLength then
                    medianwindow_minheap_root_to_maxheap_root w
                  else w)
          else some (medianwindow_put_spc_number w tailIdx)
    else
      let newValue := value
      if tailNodeHeapType = .MAX_HEAP then
        if dgt newValue oldValue then
          let p := maxheap_heapifyUp w.nodes w.maxHeap inputPosition
          let w := { w with nodes := p.1, maxHeap := p.2 }
          some (if heaps_can_rebalance w then heaps_rebalance w else w)
        else
          let p := maxheap_heapifyDown w.nodes w.maxHeap w.maxHeapLength inputPosition
          some { w with nodes := p.1, maxHeap := p.2 }
      else
        if dlt newValue oldValue then
          let p := minheap_heapifyUp w.nodes w.minHeap inputPosition
          let w := { w with nodes := p.1, minHeap := p.2 }
          some (if heaps_can_rebalance w then heaps_rebalance w else w)
        else
          let p := minheap_heapifyDown w.nodes w.minHeap w.minHeapLength inputPosition
          some { w with nodes := p.1, minHeap := p.2 }

/-- `medianwindow_result`: extract the current median. -/
def medianwindow_result (w : MedianWindow) : EDouble :=
  if w.ignoreNaNWindows && w.spcNumbers > 0 then .nan
  else if w.maxHeapLength = 0 && w.spcNumbers > 0 then .nan
  else if w.maxHeapLength ≠ w.minHeapLength then
    (nodeGet w.nodes (w.maxHeap.getD 0 0)).value
  else
    dhalf (dadd (nodeGet w.nodes (w.maxHeap.getD 0 0)).value
                (nodeGet w.nodes (w.minHeap.getD 0 0)).value)

/-- `median_window_full` from median.c. -/
def median_window_full (w : MedianWindow) : Bool := w.currentSize = w.windowSize

/-- `median_window_steps_reached` from median.c (mutates `stepDistance`). -/
def median_window_steps_reached (w : MedianWindow) : Bool × MedianWindow :=
  if w.stepDistance = 0 then (true, { w with stepDistance := w.steps - 1 })
  else (false, { w with stepDistance := w.stepDistance - 1 })

/-! ### Drivers (median.c), validation (window_helpers.c), dispatcher (medianwindow_api.c) -/

/-- `valid_window` from window_helpers.c.  The two pointer arguments are
modelled by nullness flags; note that the C code never compares
`windowSize` against `length`. -/
def valid_window (arrayNull : Bool) (length windowSize steps : Nat) (resultNull : Bool) : Bool :=
  if arrayNull || length = 0 || resultNull then false
  else if windowSize ≤ 1 || steps = 0 then false
  else true

/-- Loop of `sliding_heap_medianwindow`, also returning the final engine
state.  `none` propagates the undefined behaviour of `medianwindow_updateOld`. -/
def heap_run_aux (st : MedianWindow) : List EDouble → Option (MedianWindow × List EDouble)
  | [] => some (st, [])
  | v :: rest =>
    if median_window_full st then
      match medianwindow_updateOld st v with
      | none => none
      | some st1 =>
        let pr := median_window_steps_reached st1
        if pr.1 then
          match heap_run_aux pr.2 rest with
          | none => none
          | some p => some (p.1, medianwindow_result pr.2 :: p.2)
        else heap_run_aux pr.2 rest
    else
      let st1 := medianwindow_addNew st v
      if median_window_full st1 then
        match heap_run_aux st1 rest with
        | none => none
        | some p => some (p.1, medianwindow_result st1 :: p.2)
      else heap_run_aux st1 rest

/-- `sliding_heap_medianwindow` from median.c (arena allocation is modelled
as succeeding).  `some outs` models a `true` return with `outs` written to
the output buffer; `none` models a `false` return or undefined behaviour.
The prototypes in median.c/median.h lag behind the engine sources and omit
the NaN-policy flag; it is threaded through to the initializer here exactly
as medianwindow_api.c passes it. -/
def sliding_heap_medianwindow (array : List EDouble) (windowSize steps : Nat)
    (ignoreNaNWindows : Bool) : Option (List EDouble) :=
  if valid_window false array.length windowSize steps false then
    (heap_run_aux (medianwindow_init windowSize steps ignoreNaNWindows) array).map (fun p => p.2)
  else none

/-- State of `Tiny_MedianWindow` (the function pointer is resolved by
`set_sort_and_calc_function` at the call site of the loop). -/
structure TinyWindow where
  windowSize : Nat
  steps : Nat
  stepDistance : Nat
  tailPtr : Nat
  headPtr : Nat
deriving Repr

/-- `tiny_medianwindow_full` from median.c. -/
def tiny_medianwindow_full (w : TinyWindow) : Bool :=
  w.headPtr - w.tailPtr = w.windowSize

/-- `tiny_medianwindow_steps_reached` from median.c. -/
def tiny_medianwindow_steps_reached (w : TinyWindow) : Bool × TinyWindow :=
  if w.stepDistance = 0 then (true, { w with stepDistance := w.steps - 1 })
  else (false, { w with stepDistance := w.stepDistance - 1 })

/-- Loop of `sliding_tiny_medianwindow`; the loop index only counts down,
the window content is read from `input` at the tail pointer. -/
def tiny_run_aux (input : List EDouble) (f : List EDouble → EDouble) (st : TinyWindow) :
    Nat → List EDouble
  | 0 => []
  | k + 1 =>
    let st := if tiny_medianwindow_full st then { st with tailPtr := st.tailPtr + 1 } else st
    let st := { st with headPtr := st.headPtr + 1 }
    if tiny_medianwindow_full st then
      let pr := tiny_medianwindow_steps_reached st
      if pr.1 then
        f ((input.drop pr.2.tailPtr).take pr.2.windowSize) :: tiny_run_aux input f pr.2 k
      else tiny_run_aux input f pr.2 k
    else tiny_run_aux input f st k

/-- `sliding_tiny_medianwindow` from median.c (the NaN-policy flag threaded
as medianwindow_api.c passes it). -/
def sliding_tiny_medianwindow (array : List EDouble) (windowSize steps : Nat)
    (ignoreNaNWindows : Bool) : Option (List EDouble) :=
  if valid_window false array.length windowSize steps false then
    match set_sort_and_calc_function windowSize ignoreNaNWindows with
    | none => none
    | some f =>
      some (tiny_run_aux array f
        { windowSize := windowSize, steps := steps, stepDistance := 0, tailPtr := 0, headPtr := 0 }
        array.length)
  else none

/-- Modelled from the spec: `TINY_MEDIANWINDOW_THRESHOLD` comes from the
missing `config.h`; per spec section 4.6 ("If W <= 8, use C3; else use C5")
it is 8. -/
def TINY_MEDIANWINDOW_THRESHOLD : Nat := 8

/-- `sliding_medianwindow` from medianwindow_api.c: dispatch by window width. -/
def sliding_medianwindow (array : List EDouble) (windowSize steps : Nat)
    (ignoreNaNWindows : Bool) : Option (List EDouble) :=
  if windowSize ≤ TINY_MEDIANWINDOW_THRESHOLD then
    sliding_tiny_medianwindow array windowSize steps ignoreNaNWindows
  else sliding_heap_medianwindow array windowSize steps ignoreNaNWindows

/-! ### Reference oracle (test/mediantester.h) -/

/-- The `qsort` ordering used by `compare_doubles` (total on non-NaN values). -/
def edle (a b : EDouble) : Prop := dle a b = true

instance : DecidableRel edle := fun a b => by unfold edle; infer_instance

/-- `median_tester_gen_medians` from test/mediantester.h: the sort-and-select
reference median, one window every `steps` samples starting at 0. -/
def median_tester_gen_medians (array : List EDouble) (windowSize steps : Nat)
    (ignoreNaNWindows : Bool) : List EDouble :=
  (List.range ((array.length - windowSize) / steps + 1)).map (fun i =>
    let windowL := (array.drop (i * steps)).take windowSize
    let r := values_build_nan_free_array windowL
    let nanCounter := r.1
    if nanCounter > 0 && ignoreNaNWindows then .nan
    else
      let validNum := windowSize - nanCounter
      let buffer := List.insertionSort edle (r.2.take validNum)
      let middle := validNum / 2
      if validNum % 2 = 0 then
        dhalf (dadd (buffer.getD (middle - 1) .nan) (buffer.getD middle .nan))
      else buffer.getD middle .nan)

/-! ### Claim counterexamples -/

/-- Lift a list of rationals to finite doubles. -/
def finList (l : List ℚ) : List EDouble := l.map EDouble.fin

/-- C1: the heap engine does not emit one median per `S` input positions
starting at `W - 1`.  On input `0..10` with `W = 9`, `S = 2` the dispatcher
routes to the heap engine, whose first emission (at position 8) bypasses the
step gate, so the second median is taken from the slice `[1, 10)` (median 5)
instead of the claimed slice `[1*2, 1*2 + 9) = [2, 11)` (median 6, as the
repository's own reference oracle computes). -/
theorem c1_heap_engine_wrong_emission_positions :
    sliding_medianwindow (finList [0, 1, 2, 3, 4, 5, 6, 7, 8, 9, 10]) 9 2 false =
      some [.fin 4, .fin 5] ∧
    median_tester_gen_medians (finList [0, 1, 2, 3, 4, 5, 6, 7, 8, 9, 10]) 9 2 false =
      [.fin 4, .fin 6] := by
  constructor <;> decide

/-- C2: on input `0..9` with `W = 9`, `S = 2` the heap engine writes 2
medians although `(N - W) / S + 1 = 1`. -/
theorem c2_heap_engine_wrong_output_count :
    (sliding_heap_medianwindow (finList [0, 1, 2, 3, 4, 5, 6, 7, 8, 9]) 9 2 false).map
      List.length = some 2 ∧ (10 - 9) / 2 + 1 = 1 := by
  constructor <;> decide

/-- C3: the two engines disagree on `W = 4`, `S = 1`, input `[1,2,3,4,NaN]`
under the tolerant policy: the small engine emits the correct median 3 for
the second window, the heap engine emits 2. -/
theorem c3_engines_disagree :
    sliding_tiny_medianwindow (finList [1, 2, 3, 4] ++ [.nan]) 4 1 false =
      some [.fin (mkRat 5 2), .fin 3] ∧
    sliding_heap_medianwindow (finList [1, 2, 3, 4] ++ [.nan]) 4 1 false =
      some [.fin (mkRat 5 2), .fin 2] := by
  constructor <;> decide

/-- C4: `valid_window` never compares the window width against the input
length, so a call with `W = 11 > N = 10` is accepted and returns success
(with an empty output), although the claim (and the repository's own test
in test/test.c) says the call must be rejected. -/
theorem c4_oversized_window_not_rejected :
    valid_window false 10 11 1 false = true ∧
    sliding_medianwindow (List.replicate 10 (EDouble.fin 0)) 11 1 false = some [] := by
  constructor <;> decide

/-- C5: under the strict policy the heap engine does not emit NaN for every
NaN-containing window: on `[1..10]` followed by ten NaNs (`W = 10`, `S = 1`)
it performs an out-of-bounds heap access (a heap array indexed at
`length - 1` with `length == 0`, i.e. at `SIZE_MAX`) while processing the
last sample, so the final NaN median is never emitted; the reference oracle
expects `[5.5, NaN, ..., NaN]`. -/
theorem c5_heap_engine_crashes_on_nan_stream :
    sliding_heap_medianwindow
      (finList [1, 2, 3, 4, 5, 6, 7, 8, 9, 10] ++ List.replicate 10 .nan) 10 1 true = none ∧
    median_tester_gen_medians
      (finList [1, 2, 3, 4, 5, 6, 7, 8, 9, 10] ++ List.replicate 10 .nan) 10 1 true =
      .fin (mkRat 11 2) :: List.replicate 10 .nan := by
  constructor <;> decide

/-- C6: under the tolerant policy the heap engine emits a wrong median after
a finite sample expires into NaN while sitting in the last cell of its heap:
on `[4,8,1,9,3,7,2,10,5,6,NaN]` (`W = 10`, `S = 1`) it emits 5 for the
second window whereas the sort-and-select median of the nine finite values
is 6 (as the reference oracle computes). -/
theorem c6_heap_engine_wrong_tolerant_median :
    sliding_heap_medianwindow (finList [4, 8, 1, 9, 3, 7, 2, 10, 5, 6] ++ [.nan]) 10 1 false =
      some [.fin (mkRat 11 2), .fin 5] ∧
    median_tester_gen_medians (finList [4, 8, 1, 9, 3, 7, 2, 10, 5, 6] ++ [.nan]) 10 1 false =
      [.fin (mkRat 11 2), .fin 6] := by
  constructor <;> decide

/-- C7: after the `medianwindow_updateOld` step that expires the sample 4
into NaN on the full window `[4,8,1,9,3,7,2,10,5,6]` (`W = 10`), the heap
sizes are `maxHeapLength = 4`, `minHeapLength = 5`: the difference is not in
`{0, 1}` (the early return on the `!replaced` path skips the rebalance). -/
theorem c7_heap_balance_invariant_violated :
    (heap_run_aux (medianwindow_init 10 1 false)
        (finList [4, 8, 1, 9, 3, 7, 2, 10, 5, 6] ++ [.nan])).map
      (fun p => (p.1.currentSize, p.1.maxHeapLength, p.1.minHeapLength, p.1.spcNumbers)) =
      some (10, 4, 5, 1) ∧ ¬ (4 = 5 ∨ 4 = 5 + 1) := by
  constructor <;> decide

/-! ### C9: infinities as ordinary ordered values -/

/-- C9: the comparator used by every network and heap operation (`dgt`, the
IEEE `>`) orders +infinity above and -infinity below every finite value; an
emitted median can itself be an infinity (width-3 window `[0, +inf, +inf]`
in both engines); and a window whose two middle participants are +infinity
and -infinity emits `(+inf + -inf)/2 = NaN` with no special-casing, in both
engines (`dadd .pinf .ninf` is NaN by IEEE arithmetic alone). -/
theorem c9_infinities_are_ordinary_ordered_values :
    (∀ q : ℚ, dgt .pinf (.fin q) = true ∧ dgt (.fin q) .ninf = true ∧
      dgt (.fin q) .pinf = false ∧ dgt .ninf (.fin q) = false ∧
      dle (.fin q) .pinf = true ∧ dle .ninf (.fin q) = true) ∧
    sliding_tiny_medianwindow [.fin 0, .pinf, .pinf] 3 1 false = some [.pinf] ∧
    sliding_heap_medianwindow [.fin 0, .pinf, .pinf] 3 1 false = some [.pinf] ∧
    sliding_tiny_medianwindow [.pinf, .ninf] 2 1 false = some [.nan] ∧
    sliding_heap_medianwindow [.pinf, .ninf] 2 1 false = some [.nan] ∧
    sliding_tiny_medianwindow [.ninf, .ninf, .pinf, .pinf] 4 1 false = some [.nan] ∧
    sliding_heap_medianwindow [.ninf, .ninf, .pinf, .pinf] 4 1 false = some [.nan] ∧
    dadd .pinf .ninf = .nan ∧ dhalf (dadd .pinf .ninf) = .nan := by
  refine ⟨fun q => ⟨rfl, rfl, rfl, rfl, rfl, rfl⟩, ?_, ?_, ?_, ?_, ?_, ?_, ?_, ?_⟩ <;> decide

/-! ### C10: an under-filled window succeeds and emits nothing -/

/-- The tiny driver loop emits nothing while the window cannot fill. -/
theorem tiny_run_aux_no_emit (input : List EDouble) (f : List EDouble → EDouble) :
    ∀ (k : Nat) (st : TinyWindow), st.tailPtr = 0 → st.headPtr + k < st.windowSize →
      tiny_run_aux input f st k = [] := by
  intro k
  induction k with
  | zero => intro st _ _; rfl
  | succ k ih =>
    intro st ht hh
    have h1 : tiny_medianwindow_full st = false := by
      simp only [tiny_medianwindow_full, ht, Nat.sub_zero, decide_eq_false_iff_not]
      omega
    have h2 : tiny_medianwindow_full { st with headPtr := st.headPtr + 1 } = false := by
      simp only [tiny_medianwindow_full, ht, Nat.sub_zero, decide_eq_false_iff_not]
      omega
    simp only [tiny_run_aux, h1, Bool.false_eq_true, if_false, h2]
    exact ih _ ht (by dsimp only; omega)

/-- `medianwindow_addNew` always increments `currentSize`. -/
theorem medianwindow_addNew_currentSize (w : MedianWindow) (v : EDouble) :
    (medianwindow_addNew w v).currentSize = w.currentSize + 1 := rfl

/-- `medianwindow_addNew` preserves `windowSize`. -/
theorem medianwindow_addNew_windowSize (w : MedianWindow) (v : EDouble) :
    (medianwindow_addNew w v).windowSize = w.windowSize := by
  unfold medianwindow_addNew heaps_rebalance medianwindow_put_spc_number maxheap_put minheap_put
  dsimp only
  split_ifs <;> rfl

/-- The heap driver emits nothing while the window cannot fill. -/
theorem heap_run_aux_no_emit :
    ∀ (rest : List EDouble) (st : MedianWindow),
      st.currentSize + rest.length < st.windowSize →
      (heap_run_aux st rest).map (fun p => p.2) = some [] := by
  intro rest
  induction rest with
  | nil => intro st _; rfl
  | cons v rest ih =>
    intro st hlt
    have h1 : median_window_full st = false := by
      simp only [median_window_full, decide_eq_false_iff_not]
      simp only [List.length_cons] at hlt
      omega
    have h2 : median_window_full (medianwindow_addNew st v) = false := by
      simp only [median_window_full, medianwindow_addNew_currentSize,
        medianwindow_addNew_windowSize, decide_eq_false_iff_not]
      simp only [List.length_cons] at hlt
      omega
    simp only [heap_run_aux, h1, Bool.false_eq_true, if_false, h2]
    refine ih _ ?_
    simp only [medianwindow_addNew_currentSize, medianwindow_addNew_windowSize]
    simp only [List.length_cons] at hlt
    omega

/-- `valid_window` accepts any non-null call with a non-empty input, a window
of width at least 2 and a positive step. -/
theorem valid_window_true (n w s : Nat) (hn : 1 ≤ n) (hw : 2 ≤ w) (hs : 1 ≤ s) :
    valid_window false n w s false = true := by
  unfold valid_window
  have h1 : (false || decide (n = 0) || false) = false := by
    simp only [Bool.false_or, Bool.or_false, decide_eq_false_iff_not]
    omega
  rw [h1]
  simp only [Bool.false_eq_true, if_false]
  have h2 : (decide (w ≤ 1) || decide (s = 0)) = false := by
    simp only [Bool.or_eq_false_iff, decide_eq_false_iff_not]
    omega
  rw [h2]
  simp

/-- C10: with non-null pointers, `S >= 1`, `W >= 2`, `1 <= N < W` (and the
arena allocation succeeding, as the model assumes), `sliding_medianwindow`
returns success and writes nothing: the window never fills, so no median is
emitted, under either engine the dispatcher may choose. -/
theorem c10_short_input_succeeds_with_empty_output (arr : List EDouble) (W S : Nat)
    (pol : Bool) (hn : 1 ≤ arr.length) (hnw : arr.length < W) (hw : 2 ≤ W) (hs : 1 ≤ S) :
    sliding_medianwindow arr W S pol = some [] := by
  unfold sliding_medianwindow TINY_MEDIANWINDOW_THRESHOLD
  split_ifs with hth
  · unfold sliding_tiny_medianwindow
    rw [valid_window_true _ _ _ hn hw hs]
    simp only [if_true]
    interval_cases W <;>
      · cases pol <;>
          simp only [set_sort_and_calc_function] <;>
          rw [tiny_run_aux_no_emit _ _ _ _ rfl (by simp; omega)]
  · unfold sliding_heap_medianwindow
    rw [valid_window_true _ _ _ hn hw hs]
    simp only [if_true]
    have h := heap_run_aux_no_emit arr (medianwindow_init W S pol) (by
      show (medianwindow_init W S pol).currentSize + arr.length <
        (medianwindow_init W S pol).windowSize
      simp only [medianwindow_init]
      omega)
    exact h

/-- Witness for C10 at a concrete input: one sample, window width 2. -/
theorem c10_witness :
    sliding_medianwindow [EDouble.fin 0] 2 1 false = some [] :=
  c10_short_input_succeeds_with_empty_output [EDouble.fin 0] 2 1 false (by decide) (by decide)
    (by decide) (by decide)

/-! ### C8: the DBL_MAX-padded full sorting networks agree with the median networks

The correctness of the fixed comparator schedules is established through the
0-1 principle: a comparator network places the k-th order statistic at
position k for every linearly ordered input as soon as it does so for every
boolean input, and the boolean side is checked by `decide`. -/

/-- Insertion sort by the order of a linear order (the reference
sort-and-select order used to state network correctness). -/
def sortL [LinearOrder α] (l : List α) : List α := l.insertionSort (· ≤ ·)

/-- Setting a cell to the value it already holds changes nothing. -/
theorem set_getD_self (l : List α) (i : Nat) (d : α) (h : i < l.length) :
    l.set i (l.getD i d) = l := by
  apply List.ext_getElem?
  intro n
  rw [List.getElem?_set]
  by_cases h1 : i = n
  · subst h1
    simp [h, List.getD_eq_getElem l d h, List.getElem?_eq_getElem h]
  · simp [h1]

/-- `getD` of a mapped list, inside the range. -/
theorem getD_map (f : α → β) (l : List α) (k : Nat) (d1 : α) (d2 : β) (h : k < l.length) :
    (l.map f).getD k d2 = f (l.getD k d1) := by
  rw [List.getD_eq_getElem _ _ (by simpa using h), List.getD_eq_getElem _ _ h, List.getElem_map]

/-- `getD` of an appended list, inside the left part. -/
theorem getD_append_left (l l2 : List α) (k : Nat) (d : α) (h : k < l.length) :
    (l ++ l2).getD k d = l.getD k d := by
  rw [List.getD_eq_getElem _ _ (by simp; omega), List.getD_eq_getElem _ _ h]
  exact List.getElem_append_left h

/-- A comparator does not change the length. -/
theorem casG_length (gt : α → α → Bool) (d : α) (l : List α) (i j : Nat) :
    (casG gt d l i j).length = l.length := by
  unfold casG
  split <;> simp

/-- A network does not change the length. -/
theorem netApply_length (gt : α → α → Bool) (d : α) (ps : List (Nat × Nat)) (l : List α) :
    (netApply gt d ps l).length = l.length := by
  induction ps generalizing l with
  | nil => rfl
  | cons p ps ih =>
    show (netApply gt d ps (casG gt d l p.1 p.2)).length = l.length
    rw [ih, casG_length]

/-- A comparator commutes with mapping an order-embedding of the comparator
function (used with `EDouble.fin`, which maps `gtOrd` on rationals to `dgt`). -/
theorem casG_map_emb (f : α → β) (gt1 : α → α → Bool) (gt2 : β → β → Bool)
    (hf : ∀ x y, gt2 (f x) (f y) = gt1 x y) (l : List α) (i j : Nat) (d1 : α) (d2 : β)
    (hi : i < l.length) (hj : j < l.length) :
    casG gt2 d2 (l.map f) i j = (casG gt1 d1 l i j).map f := by
  unfold casG
  rw [getD_map f l i d1 d2 hi, getD_map f l j d1 d2 hj, hf]
  split
  · rw [List.map_set, List.map_set]
  · rfl

/-- A network commutes with mapping an order-embedding of the comparator. -/
theorem netApply_map_emb (f : α → β) (gt1 : α → α → Bool) (gt2 : β → β → Bool)
    (hf : ∀ x y, gt2 (f x) (f y) = gt1 x y) :
    ∀ (ps : List (Nat × Nat)) (l : List α) (d1 : α) (d2 : β),
      (∀ p ∈ ps, p.1 < l.length ∧ p.2 < l.length) →
      netApply gt2 d2 ps (l.map f) = (netApply gt1 d1 ps l).map f := by
  intro ps
  induction ps with
  | nil => intro l d1 d2 _; rfl
  | cons p ps ih =>
    intro l d1 d2 hps
    obtain ⟨hi, hj⟩ := hps p (List.mem_cons_self p ps)
    show netApply gt2 d2 ps (casG gt2 d2 (l.map f) p.1 p.2) =
      (netApply gt1 d1 ps (casG gt1 d1 l p.1 p.2)).map f
    rw [casG_map_emb f gt1 gt2 hf l p.1 p.2 d1 d2 hi hj]
    refine ih (casG gt1 d1 l p.1 p.2) d1 d2 ?_
    intro q hq
    rw [casG_length]
    exact hps q (List.mem_cons_of_mem p hq)

/-- A comparator commutes with mapping a monotone function (0-1 principle,
comparator step). -/
theorem casG_map_mono [LinearOrder α] [LinearOrder β] (f : α → β)
    (hmono : ∀ x y, x ≤ y → f x ≤ f y) (l : List α) (i j : Nat) (d1 : α) (d2 : β)
    (hi : i < l.length) (hj : j < l.length) :
    casG gtOrd d2 (l.map f) i j = (casG gtOrd d1 l i j).map f := by
  unfold casG gtOrd
  rw [getD_map f l i d1 d2 hi, getD_map f l j d1 d2 hj]
  by_cases hab : l.getD j d1 < l.getD i d1
  · by_cases hf : f (l.getD j d1) < f (l.getD i d1)
    · rw [decide_eq_true hab, decide_eq_true hf, if_pos rfl, if_pos rfl,
        List.map_set, List.map_set]
    · have heq : f (l.getD j d1) = f (l.getD i d1) :=
        le_antisymm (hmono _ _ hab.le) (not_lt.mp hf)
      have hmi : (l.map f).getD i d2 = f (l.getD i d1) := getD_map f l i d1 d2 hi
      have hmj : (l.map f).getD j d2 = f (l.getD j d1) := getD_map f l j d1 d2 hj
      rw [decide_eq_true hab, decide_eq_false hf, if_pos rfl, if_neg (by simp),
        List.map_set, List.map_set, heq, ← hmi,
        set_getD_self _ _ _ (by simpa using hi), hmi, ← heq, ← hmj,
        set_getD_self _ _ _ (by simpa using hj)]
  · have hf : ¬ f (l.getD j d1) < f (l.getD i d1) := fun hc =>
      absurd (hmono _ _ (not_lt.mp hab)) (not_le.mpr hc)
    rw [decide_eq_false hab, decide_eq_false hf, if_neg (by simp), if_neg (by simp)]

/-- A network commutes with mapping a monotone function (0-1 principle,
network step). -/
theorem netApply_map_mono [LinearOrder α] [LinearOrder β] (f : α → β)
    (hmono : ∀ x y, x ≤ y → f x ≤ f y) :
    ∀ (ps : List (Nat × Nat)) (l : List α) (d1 : α) (d2 : β),
      (∀ p ∈ ps, p.1 < l.length ∧ p.2 < l.length) →
      netApply gtOrd d2 ps (l.map f) = (netApply gtOrd d1 ps l).map f := by
  intro ps
  induction ps with
  | nil => intro l d1 d2 _; rfl
  | cons p ps ih =>
    intro l d1 d2 hps
    obtain ⟨hi, hj⟩ := hps p (List.mem_cons_self p ps)
    show netApply gtOrd d2 ps (casG gtOrd d2 (l.map f) p.1 p.2) =
      (netApply gtOrd d1 ps (casG gtOrd d1 l p.1 p.2)).map f
    rw [casG_map_mono f hmono l p.1 p.2 d1 d2 hi hj]
    refine ih (casG gtOrd d1 l p.1 p.2) d1 d2 ?_
    intro q hq
    rw [casG_length]
    exact hps q (List.mem_cons_of_mem p hq)

/-- Sorting commutes with mapping a monotone function. -/
theorem sortL_map_mono [LinearOrder α] [LinearOrder β] (f : α → β)
    (hmono : ∀ x y, x ≤ y → f x ≤ f y) (l : List α) :
    sortL (l.map f) = (sortL l).map f := by
  apply List.eq_of_perm_of_sorted (r := fun a b : β => a ≤ b)
  · exact (List.perm_insertionSort _ _).trans ((List.perm_insertionSort _ l).map f).symm
  · exact List.sorted_insertionSort _ _
  · exact List.Pairwise.map f (fun a b h => hmono a b h) (List.sorted_insertionSort _ l)

/-- The 0-1 principle for selection networks: if a network places the k-th
order statistic at position k for every boolean input, it does so for every
input over every linear order. -/
theorem netApply_selects [LinearOrder α] (ps : List (Nat × Nat)) (n k : Nat)
    (hk : k < n) (hps : ∀ p ∈ ps, p.1 < n ∧ p.2 < n)
    (h01 : ∀ g : Fin n → Bool,
      (netApply gtOrd false ps (List.ofFn g)).getD k false =
      (sortL (List.ofFn g)).getD k false)
    (l : List α) (hl : l.length = n) (d : α) :
    (netApply gtOrd d ps l).getD k d = (sortL l).getD k d := by
  subst hl
  have hlen1 : (netApply gtOrd d ps l).length = l.length := netApply_length _ _ _ _
  have hlen2 : (sortL l).length = l.length := List.length_insertionSort _ _
  have key : ∀ c : α,
      decide (c ≤ (netApply gtOrd d ps l).getD k d) =
      decide (c ≤ (sortL l).getD k d) := by
    intro c
    have hmono : ∀ x y : α, x ≤ y → decide (c ≤ x) ≤ decide (c ≤ y) := by
      intro x y hxy
      by_cases hc : c ≤ x
      · rw [decide_eq_true hc, decide_eq_true (hc.trans hxy)]
      · rw [decide_eq_false hc]
        exact Bool.false_le _
    have hofn : List.ofFn (fun i : Fin l.length => decide (c ≤ l[i])) =
        l.map (fun z => decide (c ≤ z)) := by
      conv_rhs => rw [← List.ofFn_getElem l, List.map_ofFn]
      rfl
    have h := h01 (fun i : Fin l.length => decide (c ≤ l[i]))
    rw [hofn, netApply_map_mono _ hmono ps l d false hps,
      sortL_map_mono _ hmono l,
      getD_map _ _ k d false (by rw [← hlen1] at hk; simpa using hk),
      getD_map _ _ k d false (by rw [← hlen2] at hk; simpa using hk)] at h
    exact h
  have h1 : (netApply gtOrd d ps l).getD k d ≤ (sortL l).getD k d := by
    have h := (key ((netApply gtOrd d ps l).getD k d)).symm
    rw [decide_eq_true (le_refl _)] at h
    exact of_decide_eq_true h
  have h2 : (sortL l).getD k d ≤ (netApply gtOrd d ps l).getD k d := by
    have h := key ((sortL l).getD k d)
    rw [decide_eq_true (le_refl _)] at h
    exact of_decide_eq_true h
  exact le_antisymm h1 h2

/-- Appending an upper bound sorts to the old sorted list with the bound last. -/
theorem sortL_append_top [LinearOrder α] (l : List α) (M : α) (hM : ∀ x ∈ l, x ≤ M) :
    sortL (l ++ [M]) = sortL l ++ [M] := by
  apply List.eq_of_perm_of_sorted (r := fun a b : α => a ≤ b)
  · exact (List.perm_insertionSort _ _).trans
      (((List.perm_insertionSort _ l).symm).append_right [M])
  · exact List.sorted_insertionSort _ _
  · rw [List.Sorted, List.pairwise_append]
    refine ⟨List.sorted_insertionSort _ _, List.sorted_singleton M, ?_⟩
    intro a ha b hb
    rw [List.mem_singleton] at hb
    subst hb
    exact hM a ((List.mem_insertionSort _).mp ha)

set_option maxRecDepth 40000 in
/-- Boolean check of the 0-1 principle for `sorting_network_6` at the median
position 2 of the padded 6-wide array. -/
theorem sn6_zero_one : ∀ g : Fin 6 → Bool,
    (netApply gtOrd false sn6ps (List.ofFn g)).getD 2 false =
    (sortL (List.ofFn g)).getD 2 false := by decide

set_option maxRecDepth 40000 in
/-- Boolean check of the 0-1 principle for `median_network_5` at position 2. -/
theorem mn5_zero_one : ∀ g : Fin 5 → Bool,
    (netApply gtOrd false mn5ps (List.ofFn g)).getD 2 false =
    (sortL (List.ofFn g)).getD 2 false := by decide

set_option maxRecDepth 100000 in
set_option maxHeartbeats 1000000 in
/-- Boolean check of the 0-1 principle for `sorting_network_8` at the median
position 3 of the padded 8-wide array. -/
theorem sn8_zero_one : ∀ g : Fin 8 → Bool,
    (netApply gtOrd false sn8ps (List.ofFn g)).getD 3 false =
    (sortL (List.ofFn g)).getD 3 false := by decide

set_option maxRecDepth 100000 in
/-- Boolean check of the 0-1 principle for `median_network_7` at position 3. -/
theorem mn7_zero_one : ∀ g : Fin 7 → Bool,
    (netApply gtOrd false mn7ps (List.ofFn g)).getD 3 false =
    (sortL (List.ofFn g)).getD 3 false := by decide

/-- A list of length 5 is a 5-tuple. -/
theorem list_len5 (l : List α) (hl : l.length = 5) : ∃ a b c d e, l = [a, b, c, d, e] := by
  rcases l with _ | ⟨a, l⟩
  · simp at hl
  rcases l with _ | ⟨b, l⟩
  · simp at hl
  rcases l with _ | ⟨c, l⟩
  · simp at hl
  rcases l with _ | ⟨d, l⟩
  · simp at hl
  rcases l with _ | ⟨e, l⟩
  · simp at hl
  rcases l with _ | ⟨x, l⟩
  · exact ⟨a, b, c, d, e, rfl⟩
  · simp only [List.length_cons, List.length_nil] at hl
    omega

/-- A list of length 7 is a 7-tuple. -/
theorem list_len7 (l : List α) (hl : l.length = 7) :
    ∃ a b c d e f g, l = [a, b, c, d, e, f, g] := by
  rcases l with _ | ⟨a, l⟩
  · simp at hl
  rcases l with _ | ⟨b, l⟩
  · simp at hl
  rcases l with _ | ⟨c, l⟩
  · simp at hl
  rcases l with _ | ⟨d, l⟩
  · simp at hl
  rcases l with _ | ⟨e, l⟩
  · simp at hl
  rcases l with _ | ⟨f, l⟩
  · simp at hl
  rcases l with _ | ⟨g, l⟩
  · simp at hl
  rcases l with _ | ⟨x, l⟩
  · exact ⟨a, b, c, d, e, f, g, rfl⟩
  · simp only [List.length_cons, List.length_nil] at hl
    omega

/-- The loop of `values_build_nan_free_array_count_nan_inf` counts NaNs and
infinities. -/
theorem foldl_cni_counts :
    ∀ (l : List EDouble) (st : Nat × Nat × Nat × List EDouble),
      (l.foldl values_build_cni_step st).1 = st.1 + l.countP (fun v => isnan v) ∧
      (l.foldl values_build_cni_step st).2.1 = st.2.1 + l.countP (fun v => IS_INFINITY v) := by
  intro l
  induction l with
  | nil => intro st; simp
  | cons v l ih =>
    intro st
    rw [List.foldl_cons, List.countP_cons, List.countP_cons]
    obtain ⟨h1, h2⟩ := ih (values_build_cni_step st v)
    constructor
    · rw [h1]
      unfold values_build_cni_step
      by_cases hv : isnan v <;> simp [hv] <;> omega
    · rw [h2]
      unfold values_build_cni_step
      by_cases hv : isnan v <;> by_cases hw : IS_INFINITY v <;> simp [hv, hw] <;> omega

/-- A window containing a NaN or an infinity never takes the padded branch. -/
theorem med5_padded_cond_false (w : List EDouble)
    (h : w.any (fun v => isnan v || IS_INFINITY v) = true) :
    med5_padded_cond w = false := by
  unfold med5_padded_cond values_build_nan_free_array_count_nan_inf
  obtain ⟨h1, h2⟩ := foldl_cni_counts w (0, 0, 0, List.replicate w.length EDouble.nan)
  dsimp only
  rw [h1, h2]
  rcases List.any_eq_true.mp h with ⟨v, hv, hp⟩
  rcases Bool.or_eq_true_iff.mp hp with hn | hi
  · have hc : 0 < w.countP (fun v => isnan v) := List.countP_pos_iff.mpr ⟨v, hv, hn⟩
    rw [Bool.and_eq_false_iff]
    left
    exact decide_eq_false (by omega)
  · have hc : 0 < w.countP (fun v => IS_INFINITY v) := List.countP_pos_iff.mpr ⟨v, hv, hi⟩
    rw [Bool.and_eq_false_iff]
    right
    exact decide_eq_false (by omega)

set_option maxHeartbeats 2000000 in
/-- The width-5 all-finite padded path equals the `median_network_5` result. -/
theorem med5_padded_eq_network (l : List ℚ) (hl : l.length = 5)
    (hbound : ∀ x ∈ l, x ≤ dblMax) :
    sort_and_calc_median5 (l.map EDouble.fin) =
    (median_network_5 (l.map EDouble.fin)).getD 2 .nan := by
  obtain ⟨a, b, c, d, e, rfl⟩ := list_len5 l hl
  have h5 : sort_and_calc_median5 ([a, b, c, d, e].map EDouble.fin) =
      (sorting_network_6 (([a, b, c, d, e].map EDouble.fin) ++ [EDouble.fin dblMax])).getD 2
        .nan := rfl
  rw [h5]
  have hm : ([a, b, c, d, e].map EDouble.fin) ++ [EDouble.fin dblMax] =
      ([a, b, c, d, e] ++ [dblMax]).map EDouble.fin := by simp
  rw [hm]
  unfold sorting_network_6 median_network_5
  rw [netApply_map_emb EDouble.fin gtOrd dgt (fun x y => rfl) sn6ps
        ([a, b, c, d, e] ++ [dblMax]) 0 .nan (by intro p hp; simp; revert p hp; decide),
      netApply_map_emb EDouble.fin gtOrd dgt (fun x y => rfl) mn5ps
        [a, b, c, d, e] 0 .nan (by intro p hp; simp; revert p hp; decide),
      getD_map EDouble.fin _ 2 0 .nan (by rw [netApply_length]; simp),
      getD_map EDouble.fin _ 2 0 .nan (by rw [netApply_length]; simp)]
  refine congrArg EDouble.fin ?_
  have h1 := netApply_selects sn6ps 6 2 (by omega) (by decide) sn6_zero_one
      ([a, b, c, d, e] ++ [dblMax]) (by simp) 0
  have h2 := netApply_selects mn5ps 5 2 (by omega) (by decide) mn5_zero_one
      [a, b, c, d, e] (by simp) 0
  have h3 := sortL_append_top [a, b, c, d, e] dblMax hbound
  have h4 := getD_append_left (sortL [a, b, c, d, e]) [dblMax] 2 (0 : ℚ)
      (by unfold sortL; rw [List.length_insertionSort]; simp)
  rw [h1, h3, h4, ← h2]

set_option maxHeartbeats 4000000 in
/-- The width-7 all-finite padded path equals the `median_network_7` result. -/
theorem med7_padded_eq_network (l : List ℚ) (hl : l.length = 7)
    (hbound : ∀ x ∈ l, x ≤ dblMax) :
    sort_and_calc_median7 (l.map EDouble.fin) =
    (median_network_7 (l.map EDouble.fin)).getD 3 .nan := by
  obtain ⟨a, b, c, d, e, f, g, rfl⟩ := list_len7 l hl
  have h7 : sort_and_calc_median7 ([a, b, c, d, e, f, g].map EDouble.fin) =
      (sorting_network_8 (([a, b, c, d, e, f, g].map EDouble.fin) ++ [EDouble.fin dblMax])).getD 3
        .nan := rfl
  rw [h7]
  have hm : ([a, b, c, d, e, f, g].map EDouble.fin) ++ [EDouble.fin dblMax] =
      ([a, b, c, d, e, f, g] ++ [dblMax]).map EDouble.fin := by simp
  rw [hm]
  unfold sorting_network_8 median_network_7
  rw [netApply_map_emb EDouble.fin gtOrd dgt (fun x y => rfl) sn8ps
        ([a, b, c, d, e, f, g] ++ [dblMax]) 0 .nan (by intro p hp; simp; revert p hp; decide),
      netApply_map_emb EDouble.fin gtOrd dgt (fun x y => rfl) mn7ps
        [a, b, c, d, e, f, g] 0 .nan (by intro p hp; simp; revert p hp; decide),
      getD_map EDouble.fin _ 3 0 .nan (by rw [netApply_length]; simp),
      getD_map EDouble.fin _ 3 0 .nan (by rw [netApply_length]; simp)]
  refine congrArg EDouble.fin ?_
  have h1 := netApply_selects sn8ps 8 3 (by omega) (by decide) sn8_zero_one
      ([a, b, c, d, e, f, g] ++ [dblMax]) (by simp) 0
  have h2 := netApply_selects mn7ps 7 3 (by omega) (by decide) mn7_zero_one
      [a, b, c, d, e, f, g] (by simp) 0
  have h3 := sortL_append_top [a, b, c, d, e, f, g] dblMax hbound
  have h4 := getD_append_left (sortL [a, b, c, d, e, f, g]) [dblMax] 3 (0 : ℚ)
      (by unfold sortL; rw [List.length_insertionSort]; simp)
  rw [h1, h3, h4, ← h2]

/-- C8: for every all-finite 5-element (respectively 7-element) window of
machine-representable values, the `DBL_MAX`-padded 6-wide (respectively
8-wide) full sorting-network path taken by `sort_and_calc_median5`
(`sort_and_calc_median7`) returns exactly the median produced by
`median_network_5` (`median_network_7`) on the same values; and the padded
branch condition is false whenever the window contains a NaN or an
infinity. -/
theorem c8_padded_networks_equivalent :
    (∀ l : List ℚ, l.length = 5 → (∀ x ∈ l, x ≤ dblMax) →
      sort_and_calc_median5 (l.map EDouble.fin) =
        (median_network_5 (l.map EDouble.fin)).getD 2 .nan) ∧
    (∀ l : List ℚ, l.length = 7 → (∀ x ∈ l, x ≤ dblMax) →
      sort_and_calc_median7 (l.map EDouble.fin) =
        (median_network_7 (l.map EDouble.fin)).getD 3 .nan) ∧
    (∀ w : List EDouble, w.any (fun v => isnan v || IS_INFINITY v) = true →
      med5_padded_cond w = false ∧ med7_padded_cond w = false) :=
  ⟨med5_padded_eq_network, med7_padded_eq_network,
   fun w h => ⟨med5_padded_cond_false w h, med5_padded_cond_false w h⟩⟩

set_option exponentiation.threshold 1100 in
/-- Any value at most 2^100 is within the `DBL_MAX` bound. -/
theorem dblMax_ge (x : ℚ) (h : x ≤ 2 ^ 100) : x ≤ dblMax := by
  refine le_trans h ?_
  unfold dblMax
  rw [Rat.divInt_eq_div]
  push_cast
  norm_num

/-- Witness for C8 at concrete inputs. -/
theorem c8_witness :
    sort_and_calc_median5 ([3, 1, 4, 1, 5].map EDouble.fin) =
      (median_network_5 ([3, 1, 4, 1, 5].map EDouble.fin)).getD 2 .nan ∧
    sort_and_calc_median7 ([3, 1, 4, 1, 5, 9, 2].map EDouble.fin) =
      (median_network_7 ([3, 1, 4, 1, 5, 9, 2].map EDouble.fin)).getD 3 .nan ∧
    med5_padded_cond [.nan, .fin 1, .fin 2, .fin 3, .fin 4] = false ∧
    med7_padded_cond [.pinf, .fin 1, .fin 2, .fin 3, .fin 4, .fin 5, .fin 6] = false :=
  ⟨c8_padded_networks_equivalent.1 [3, 1, 4, 1, 5] (by decide)
      (by intro x hx; simp at hx
          rcases hx with rfl | rfl | rfl | rfl | rfl <;> exact dblMax_ge _ (by norm_num)),
   c8_padded_networks_equivalent.2.1 [3, 1, 4, 1, 5, 9, 2] (by decide)
      (by intro x hx; simp at hx
          rcases hx with rfl | rfl | rfl | rfl | rfl | rfl | rfl <;>
            exact dblMax_ge _ (by norm_num)),
   (c8_padded_networks_equivalent.2.2 [.nan, .fin 1, .fin 2, .fin 3, .fin 4] (by decide)).1,
   (c8_padded_networks_equivalent.2.2
      [.pinf, .fin 1, .fin 2, .fin 3, .fin 4, .fin 5, .fin 6] (by decide)).2⟩
